import Mathlib

set_option linter.unusedVariables false

/-!
Verification of the CRITs campaign handlers (`crits/campaigns/handlers.py`):
the Campaign registry (`add_campaign`, `remove_campaign`) and the attribution
engine (`campaign_add`, `campaign_edit`, `campaign_remove`,
`campaign_addto_related`), shallowly embedded over an explicit document-store
state.  Collaborators that live outside this module (the embedded-campaign
list mutators of `crits.core.crits_mongoengine`, the class mapper, alias
bookkeeping on `Campaign`) are modelled from the specification, as noted on
each definition.
-/

namespace Crits

/-! ## Python string helpers

`str.split(',')` and `str.strip()` as used by `add_campaign` for alias
normalization, implemented structurally over the character list. -/

def pyIsSpace (c : Char) : Bool :=
  c == ' ' || c == '\t' || c == '\n' || c == '\r'

/-- Python `str.strip()`: remove leading and trailing whitespace. -/
def pyStrip (s : String) : String :=
  ⟨((s.data.dropWhile pyIsSpace).reverse.dropWhile pyIsSpace).reverse⟩

/-- Helper for `pySplitComma`: split a character list at every comma. -/
def splitCommaAux : List Char → List Char → List (List Char)
  | [], acc => [acc.reverse]
  | c :: cs, acc =>
    if c == ',' then acc.reverse :: splitCommaAux cs []
    else splitCommaAux cs (c :: acc)

/-- Python `str.split(',')`: split on every comma (no collapsing). -/
def pySplitComma (s : String) : List String :=
  (splitCommaAux s.data []).map fun cs => ⟨cs⟩

/-! ## Data model -/

/-- An embedded campaign attribution held on a top-level object
(`crits.core.crits_mongoengine.EmbeddedCampaign`): campaign name, confidence,
description, attributing analyst and attribution date (modelled as a `Nat`
timestamp; `campaign_add` fills it with the current time). -/
structure EmbeddedCampaign where
  name : String
  confidence : String
  description : String
  analyst : String
  date : Nat
deriving Repr, DecidableEq

/-- A relationship edge held by a top-level object: the related object's type
tag and id. -/
structure Relationship where
  rel_type : String
  object_id : String
deriving Repr, DecidableEq

/-- A top-level intelligence object (actor, indicator, sample, ...): its type
tag, id, embedded campaign attributions and relationship edges. -/
structure TLO where
  ctype : String
  oid : String
  campaigns : List EmbeddedCampaign
  relationships : List Relationship
deriving Repr, DecidableEq

/-- The persisted document store of top-level objects.  An object loaded from
the store and mutated in memory only becomes visible here after a successful
`save`. -/
abbrev Store := List TLO

/-- A Campaign registry record (`crits.campaigns.campaign.Campaign`), with the
fields `add_campaign` touches. -/
structure CampaignRec where
  id : String
  name : String
  description : String
  aliases : List String
  bucket_list : Option String
  ticket : Option String
  relationships : List Relationship
deriving Repr, DecidableEq

/-! ## External collaborators (modelled from the spec) -/

/-- Modelled from the spec: the class mapper's set of supported type tags
(`crits.core.class_mapper`, not in src) — "actor, indicator, sample, domain,
IP, email, event, exploit, backdoor, PCAP, target, etc.". -/
def knownTypes : List String :=
  ["Actor", "Backdoor", "Domain", "Email", "Event", "Exploit",
   "Indicator", "IP", "PCAP", "Sample", "Target", "Campaign"]

/-- Modelled from the spec: `class_from_type` (`crits.core.class_mapper`, not
in src) resolves a type tag to a class; unknown tags yield nothing. -/
def class_from_type (t : String) : Bool :=
  knownTypes.contains t

/-- Does the stored object `t` carry the key `(ctype, oid)`? -/
def keyMatch (t : TLO) (ctype oid : String) : Bool :=
  t.ctype == ctype && t.oid == oid

/-- Find the persisted object with the given type tag and id. -/
def findObj (store : Store) (ctype oid : String) : Option TLO :=
  store.find? fun t => keyMatch t ctype oid

/-- Persist an object: replace the stored object(s) carrying its key. -/
def updateObj (store : Store) (obj : TLO) : Store :=
  store.map fun t => if keyMatch t obj.ctype obj.oid then obj else t

/-- Modelled from the spec: the Object Resolver `class_from_id`
(`crits.core.class_mapper`, not in src) — `resolve(typeTag, id) ->
object | NotFound`; unknown type tags resolve to nothing. -/
def class_from_id (store : Store) (ctype oid : String) : Option TLO :=
  if class_from_type ctype then findObj store ctype oid else none

/-- Python truthiness of an optional string argument: absent (`None`) and
empty strings are falsy. -/
def truthy : Option String → Bool
  | none => false
  | some s => !(s == "")

/-- Modelled from the spec: the Relationship Inverter
(`crits.vocabulary.relationships.RelationshipTypes.inverse`, not in src), "a
static lookup table" from a relationship type to its inverse. -/
def inverseRel (r : String) : String :=
  if r == "Contains" then "Contained Within"
  else if r == "Contained Within" then "Contains"
  else "Related To"

/-! ## Embedded-campaign list mutators (modelled from the spec)

These live on every top-level object in `crits.core.crits_mongoengine`
(not in src); the spec (§4.2 step 3, §4.2 edit/remove) fixes their
behaviour. -/

/-- Result of an embedded-campaign list mutation: success flag, message, and
the resulting attribution list. -/
structure EmbedResult where
  success : Bool
  message : String
  campaigns : List EmbeddedCampaign
deriving Repr, DecidableEq

/-- Modelled from the spec: `CritsBaseAttributes.add_campaign`
(`crits.core.crits_mongoengine`, not in src).  "If an entry with the same
name already exists on the target, merge policy (when merge=true) updates
only confidence and description in place, preserving the original
analyst/date — when merge=false, the pre-existing entry is left untouched and
the call is a no-op for that object (still reported as success).  If no entry
exists, append a new one." -/
def addCampaignEmbed (cs : List EmbeddedCampaign) (item : EmbeddedCampaign)
    (update : Bool) : EmbedResult :=
  if cs.any fun c => c.name == item.name then
    if update then
      { success := true
        message := "Campaign value updated."
        campaigns := cs.map fun c =>
          if c.name == item.name then
            { c with confidence := item.confidence, description := item.description }
          else c }
    else
      { success := true
        message := "Campaign already attributed."
        campaigns := cs }
  else
    { success := true, message := "Campaign added.", campaigns := cs ++ [item] }

/-- Modelled from the spec: `CritsBaseAttributes.edit_campaign`
(`crits.core.crits_mongoengine`, not in src).  "Always replaces
confidence/description/date on the existing entry identified by campaignName
(fails with NotFound at the entry level if no such attribution exists)." -/
def editCampaignEmbed (cs : List EmbeddedCampaign) (item : EmbeddedCampaign) :
    EmbedResult :=
  if cs.any fun c => c.name == item.name then
    { success := true
      message := "Campaign edited."
      campaigns := cs.map fun c =>
        if c.name == item.name then
          { c with confidence := item.confidence, description := item.description,
                   date := item.date }
        else c }
  else
    { success := false, message := "Campaign not found.", campaigns := cs }

/-- Modelled from the spec: `CritsBaseAttributes.remove_campaign`
(`crits.core.crits_mongoengine`, not in src).  "Deletes the matching entry by
name; fails with NotFound if the entry is missing." -/
def removeCampaignEmbed (cs : List EmbeddedCampaign) (name : String) :
    EmbedResult :=
  if cs.any fun c => c.name == name then
    { success := true
      message := "Campaign removed."
      campaigns := cs.filter fun c => !(c.name == name) }
  else
    { success := false, message := "Campaign not found.", campaigns := cs }

/-- Modelled from the spec: the rendering collaborator `format_campaign`
("a rendered representation of the resulting attribution entry for UI
echo"). -/
def format_campaign (c : EmbeddedCampaign) (analyst : String) : String :=
  c.name ++ "|" ++ c.confidence ++ "|" ++ analyst

/-! ## Campaign registry: `add_campaign` (handlers.py:289-367) -/

/-- An exception escaping a handler: Python's `NameError` (an undefined local
variable is read) or a mongoengine `ValidationError` raised by `save` outside
any `try` block. -/
inductive PyError where
  | nameError (var : String)
  | validationError (msg : String)
deriving Repr, DecidableEq

/-- A Python value appearing in a result dict `message` slot: `add_campaign`
returns a list of strings in its already-exists branch and a plain string
elsewhere. -/
inductive PyVal where
  | str (s : String)
  | strList (l : List String)
deriving Repr, DecidableEq

/-- The result dict of `add_campaign`: `success`, `message`, and `id` when
present. -/
structure AddCampaignResult where
  success : Bool
  message : PyVal
  id : Option String
deriving Repr, DecidableEq

/-- The alias argument of `add_campaign`: a comma-separated string, a list,
or anything else (e.g. `None`). -/
inductive AliasInput where
  | str (s : String)
  | list (l : List String)
  | other
deriving Repr, DecidableEq

/-- The alias normalization inlined in `add_campaign` (handlers.py:331-338):
a string is split on commas and each piece stripped; a list has each element
stripped; anything else yields the empty list. -/
def final_aliases : AliasInput → List String
  | .str s => (pySplitComma s).map pyStrip
  | .list l => l.map pyStrip
  | .other => []

/-- Modelled from the spec: `Campaign.add_alias`
(`crits.campaigns.campaign`, not in src) — aliases are stored as "a
deduplicated, trimmed list" (the trimming happens in the handler; the
campaign keeps each alias at most once). -/
def add_alias (aliases : List String) (new : List String) : List String :=
  new.foldl (fun acc a => if a ∈ acc then acc else acc ++ [a]) aliases

/-- Modelled from the spec: `Campaign.add_relationship`
(`crits.core.crits_mongoengine`, not in src) — "creates a bidirectional
relationship between the new Campaign and that object using the inverse of
the requested relationship type (the Campaign stores the inverse)". -/
def campaignAddRelationship (c : CampaignRec) (ro : TLO) (invType : String) :
    CampaignRec :=
  { c with relationships := c.relationships ++ [⟨invType, ro.oid⟩] }

/-- Find the Campaign registry record with the given name
(`Campaign.objects(name=name).first()`, exact match). -/
def findCampaign (camps : List CampaignRec) (name : String) : Option CampaignRec :=
  camps.find? fun c => c.name == name

/-- `add_campaign` (handlers.py:289-367), over the campaign registry `camps`
and the top-level-object store `store`.  `failSaveC` models the document
store's validation verdict when a campaign record is saved
(`ValidationFailed` on schema rejection).  Faithful to the source, including:
the already-exists early return; the alias normalization; the unresolvable
related-object branch that assigns to the never-defined local `retVal`
(handlers.py:345-347), modelled as a raised `NameError`; the first
`campaign.save` (handlers.py:349) and the relationship-path save
(handlers.py:357) sitting outside any `try` block, so a `ValidationError`
there propagates; and the final guarded save returning a structured
failure. -/
def add_campaign (camps : List CampaignRec) (store : Store)
    (name description : String) (aliases : AliasInput) (analyst : String)
    (bucket_list ticket related_id related_type relationship_type : Option String)
    (failSaveC : CampaignRec → Bool) :
    Except PyError (AddCampaignResult × List CampaignRec) :=
  -- Verify the Campaign does not exist.
  match findCampaign camps name with
  | some existing =>
    .ok ({ success := false, message := .strList ["Campaign already exists."],
           id := some existing.id }, camps)
  | none =>
    let campaign : CampaignRec :=
      { id := "new:" ++ name, name := name, description := description,
        aliases := [], bucket_list := none, ticket := none, relationships := [] }
    let campaign := if truthy bucket_list then { campaign with bucket_list } else campaign
    let campaign := if truthy ticket then { campaign with ticket } else campaign
    -- Adjust aliases.
    let campaign := { campaign with aliases := add_alias campaign.aliases (final_aliases aliases) }
    -- Resolve the related object, if requested.
    let related_obj : Except PyError (Option TLO) :=
      if truthy related_id && truthy related_type then
        match class_from_id store (related_type.getD "") (related_id.getD "") with
        | some ro => .ok (some ro)
        | none =>
          -- `retVal['success'] = False` where `retVal` was never assigned.
          .error (.nameError "retVal")
      else .ok none
    match related_obj with
    | .error e => .error e
    | .ok related_obj =>
      -- `campaign.save(username=analyst)` outside any try block.
      if failSaveC campaign then
        .error (.validationError "Invalid value")
      else
        let camps := camps ++ [campaign]
        match related_obj, relationship_type with
        | some ro, some rt =>
          let campaign := campaignAddRelationship campaign ro (inverseRel rt)
          -- second unguarded `campaign.save` on the relationship path
          if failSaveC campaign then
            .error (.validationError "Invalid value")
          else
            let camps := camps.map fun c => if c.id == campaign.id then campaign else c
            -- final, guarded save
            if failSaveC campaign then
              .ok ({ success := false,
                     message := .str "Invalid value: ValidationError", id := none }, camps)
            else
              .ok ({ success := true,
                     message := .str "Campaign created successfully!",
                     id := some campaign.id }, camps)
        | _, _ =>
          -- final, guarded save
          if failSaveC campaign then
            .ok ({ success := false,
                   message := .str "Invalid value: ValidationError", id := none }, camps)
          else
            .ok ({ success := true,
                   message := .str "Campaign created successfully!",
                   id := some campaign.id }, camps)

/-! ## Attribution engine (handlers.py:538-694) -/

/-- The result dict of the attribution handlers: `success`, a `message` when
one is set, and `html` on the success path of `campaign_add` /
`campaign_edit`. -/
structure CResult where
  success : Bool
  message : Option String
  html : Option String
deriving Repr, DecidableEq

/-- `campaign_addto_related` (handlers.py:538-562): for every relationship
edge of `obj`, resolve the related object's class by its type tag (unknown
tags are skipped), look the object up by id (missing objects are skipped),
add the campaign to it with the default merge policy, and save it —
`ValidationError` on that save is swallowed (`except ValidationError: pass`),
so a failed save leaves the store untouched for that object and the walk
continues.  `failSave` models the document store's validation verdict per
object key. -/
def campaign_addto_related (store : Store) (obj : TLO)
    (campaign : EmbeddedCampaign) (analyst : String)
    (failSave : String → String → Bool) : Store :=
  obj.relationships.foldl
    (fun st r =>
      if class_from_type r.rel_type then
        match findObj st r.rel_type r.object_id with
        | none => st
        | some robj =>
          let robj := { robj with
            campaigns := (addCampaignEmbed robj.campaigns campaign true).campaigns }
          if failSave robj.ctype robj.oid then st else updateObj st robj
      else st)
    store

/-- `campaign_add` (handlers.py:565-618): resolve the target (a pre-loaded
instance, else a `(ctype, oid)` pair; missing both is a structured failure),
build the embedded campaign stamped with the current time, delegate to the
target's campaign-list mutator, optionally fan out to related objects before
saving, then persist the target, converting a `ValidationError` into a
structured failure. -/
def campaign_add (store : Store) (campaign_name confidence description : String)
    (related : Bool) (analyst : String) (ctype oid : Option String)
    (obj : Option TLO) (update : Bool) (now : Nat)
    (failSave : String → String → Bool) : CResult × Store :=
  let resolved : Except String TLO :=
    match obj with
    | some o => .ok o
    | none =>
      if truthy ctype && truthy oid then
        match class_from_id store (ctype.getD "") (oid.getD "") with
        | some o => .ok o
        | none => .error ("Cannot find " ++ ctype.getD "" ++ ".")
      else .error "Object type and ID, or object instance, must be provided."
  match resolved with
  | .error msg => ({ success := false, message := some msg, html := none }, store)
  | .ok obj =>
    -- Create the embedded campaign.
    let campaign : EmbeddedCampaign :=
      ⟨campaign_name, confidence, description, analyst, now⟩
    let result := addCampaignEmbed obj.campaigns campaign update
    if result.success then
      let obj := { obj with campaigns := result.campaigns }
      let store1 := if related then campaign_addto_related store obj campaign analyst failSave
                    else store
      if failSave obj.ctype obj.oid then
        ({ success := false, message := some "Invalid value: ValidationError",
           html := none }, store1)
      else
        ({ success := true, message := some result.message,
           html := some (format_campaign campaign analyst) }, updateObj store1 obj)
    else
      ({ success := false, message := some result.message, html := none }, store)

/-- `campaign_edit` (handlers.py:620-666): resolve the target by `(ctype,
oid)`, build the embedded campaign with the supplied date, call the target's
`edit_campaign` mutator — whose return value the handler discards —
optionally fan out, then persist, converting a `ValidationError` into a
structured failure. -/
def campaign_edit (store : Store) (ctype oid campaign_name confidence
    description : String) (date : Nat) (related : Bool) (analyst : String)
    (failSave : String → String → Bool) : CResult × Store :=
  -- Verify the document exists.
  match class_from_id store ctype oid with
  | none => ({ success := false, message := some ("Cannot find " ++ ctype ++ "."),
               html := none }, store)
  | some crits_object =>
    -- Create the embedded campaign.
    let campaign : EmbeddedCampaign :=
      ⟨campaign_name, confidence, description, analyst, date⟩
    -- `crits_object.edit_campaign(campaign_item=campaign)`, result discarded.
    let crits_object := { crits_object with
      campaigns := (editCampaignEmbed crits_object.campaigns campaign).campaigns }
    let store1 := if related then
        campaign_addto_related store crits_object campaign analyst failSave
      else store
    if failSave crits_object.ctype crits_object.oid then
      ({ success := false, message := some "Invalid value: ValidationError",
         html := none }, store1)
    else
      ({ success := true, message := none,
         html := some (format_campaign campaign analyst) },
       updateObj store1 crits_object)

/-- `campaign_remove` (handlers.py:668-694): resolve the target by `(ctype,
oid)`, call the target's `remove_campaign` mutator — whose return value the
handler discards — then persist, converting a `ValidationError` into a
structured failure. -/
def campaign_remove (store : Store) (ctype oid campaign analyst : String)
    (failSave : String → String → Bool) : CResult × Store :=
  -- Verify the document exists.
  match class_from_id store ctype oid with
  | none => ({ success := false, message := some ("Cannot find " ++ ctype ++ "."),
               html := none }, store)
  | some crits_object =>
    let crits_object := { crits_object with
      campaigns := (removeCampaignEmbed crits_object.campaigns campaign).campaigns }
    if failSave crits_object.ctype crits_object.oid then
      ({ success := false, message := some "Invalid value: ValidationError",
         html := none }, store)
    else
      ({ success := true, message := none, html := none },
       updateObj store crits_object)

/-! ## Helper lemmas -/

/-- A list of embedded campaigns holds at most one entry per campaign name. -/
def nodupNames (cs : List EmbeddedCampaign) : Prop :=
  (cs.map EmbeddedCampaign.name).Nodup

instance (cs : List EmbeddedCampaign) : Decidable (nodupNames cs) :=
  inferInstanceAs (Decidable (cs.map EmbeddedCampaign.name).Nodup)

theorem map_ite_name_eq_self (cs : List EmbeddedCampaign) (n : String)
    (f : EmbeddedCampaign → EmbeddedCampaign)
    (h : (cs.any fun c => c.name == n) = false) :
    (cs.map fun c => if c.name == n then f c else c) = cs := by
  induction cs with
  | nil => rfl
  | cons a l ih =>
    simp only [List.any_cons, Bool.or_eq_false_iff] at h
    have ha : ¬((a.name == n) = true) := by simp [h.1]
    rw [List.map_cons, if_neg ha, ih h.2]

theorem add_alias_nodup (acc : List String) (hacc : acc.Nodup)
    (l : List String) : (add_alias acc l).Nodup := by
  induction l generalizing acc with
  | nil => exact hacc
  | cons a l ih =>
    unfold add_alias
    rw [List.foldl_cons]
    by_cases hmem : a ∈ acc
    · rw [if_pos hmem]; exact ih acc hacc
    · rw [if_neg hmem]
      exact ih (acc ++ [a]) (by simp [List.nodup_append, hacc, hmem])

theorem keyMatch_self (obj : TLO) : keyMatch obj obj.ctype obj.oid = true := by
  simp [keyMatch]

theorem updateObj_eq_self (store : Store) (obj : TLO)
    (h : ∀ t ∈ store, keyMatch t obj.ctype obj.oid = true → t = obj) :
    updateObj store obj = store := by
  induction store with
  | nil => rfl
  | cons a s ih =>
    have tail : updateObj s obj = s := ih fun t ht => h t (List.mem_cons_of_mem a ht)
    unfold updateObj
    rw [List.map_cons]
    by_cases hm : keyMatch a obj.ctype obj.oid = true
    · rw [if_pos hm, h a (List.mem_cons_self a s) hm]
      exact congrArg _ tail
    · rw [if_neg hm]
      exact congrArg _ tail

theorem findObj_updateObj_self (store : Store) (obj : TLO)
    (h : (findObj store obj.ctype obj.oid).isSome) :
    findObj (updateObj store obj) obj.ctype obj.oid = some obj := by
  induction store with
  | nil => simp [findObj] at h
  | cons a s ih =>
    cases hm : keyMatch a obj.ctype obj.oid with
    | true => simp [findObj, updateObj, List.find?_cons, hm, keyMatch_self]
    | false =>
      have h' : (findObj s obj.ctype obj.oid).isSome := by
        simpa [findObj, List.find?_cons, hm] using h
      simpa [findObj, updateObj, List.find?_cons, hm] using ih h'

theorem findObj_updateObj_other (store : Store) (obj : TLO) (ct oid : String)
    (h : keyMatch obj ct oid = false) :
    findObj (updateObj store obj) ct oid = findObj store ct oid := by
  induction store with
  | nil => rfl
  | cons a s ih =>
    cases hm : keyMatch a obj.ctype obj.oid with
    | true =>
      have hkeys : a.ctype = obj.ctype ∧ a.oid = obj.oid := by
        simpa [keyMatch] using hm
      have ha : keyMatch a ct oid = false := by
        simp only [keyMatch, hkeys.1, hkeys.2]
        simpa [keyMatch] using h
      simpa [findObj, updateObj, List.find?_cons, hm, h, ha] using ih
    | false =>
      cases hat : keyMatch a ct oid with
      | true => simp [findObj, updateObj, List.find?_cons, hm, hat]
      | false => simpa [findObj, updateObj, List.find?_cons, hm, hat] using ih

theorem addCampaignEmbed_success (cs : List EmbeddedCampaign)
    (item : EmbeddedCampaign) : (addCampaignEmbed cs item true).success = true := by
  unfold addCampaignEmbed
  by_cases h : (cs.any fun c => c.name == item.name) = true <;> simp [h]

theorem names_map_preserve (cs : List EmbeddedCampaign)
    (f : EmbeddedCampaign → EmbeddedCampaign)
    (hf : ∀ c, (f c).name = c.name) :
    (cs.map f).map EmbeddedCampaign.name = cs.map EmbeddedCampaign.name := by
  induction cs with
  | nil => rfl
  | cons a l ih => simp [hf, ih]

theorem nodupNames_addCampaignEmbed (cs : List EmbeddedCampaign)
    (item : EmbeddedCampaign) (u : Bool) (h : nodupNames cs) :
    nodupNames (addCampaignEmbed cs item u).campaigns := by
  have h' : (cs.map EmbeddedCampaign.name).Nodup := h
  unfold addCampaignEmbed
  split
  · split
    · show nodupNames (cs.map fun c =>
        if c.name == item.name then
          { c with confidence := item.confidence, description := item.description }
        else c)
      unfold nodupNames
      rw [names_map_preserve]
      · exact h'
      · intro c
        by_cases hc : (c.name == item.name) = true <;> simp [hc]
    · exact h
  · rename_i hmem
    rw [Bool.not_eq_true, List.any_eq_false] at hmem
    have hnotin : item.name ∉ cs.map EmbeddedCampaign.name := by
      intro hin
      rcases List.mem_map.mp hin with ⟨c, hc, hcn⟩
      exact hmem c hc (by simp [hcn])
    show nodupNames (cs ++ [item])
    unfold nodupNames
    simp [List.nodup_append, h', hnotin]

theorem nodupNames_editCampaignEmbed (cs : List EmbeddedCampaign)
    (item : EmbeddedCampaign) (h : nodupNames cs) :
    nodupNames (editCampaignEmbed cs item).campaigns := by
  have h' : (cs.map EmbeddedCampaign.name).Nodup := h
  unfold editCampaignEmbed
  split
  · show nodupNames (cs.map fun c =>
      if c.name == item.name then
        { c with confidence := item.confidence, description := item.description,
                 date := item.date }
      else c)
    unfold nodupNames
    rw [names_map_preserve]
    · exact h'
    · intro c
      by_cases hc : (c.name == item.name) = true <;> simp [hc]
  · exact h

theorem nodupNames_removeCampaignEmbed (cs : List EmbeddedCampaign)
    (m : String) (h : nodupNames cs) :
    nodupNames (removeCampaignEmbed cs m).campaigns := by
  unfold removeCampaignEmbed
  cases hmem : cs.any fun c => c.name == m with
  | true =>
    refine List.Nodup.sublist ?_ h
    exact (cs.filter_sublist).map EmbeddedCampaign.name
  | false => simpa [nodupNames] using h

/-! ## Claim theorems -/

/-- Claim C3: the source of `add_campaign` reads the never-assigned local
`retVal` when a related object reference is supplied but cannot be resolved
(handlers.py:345-347), so instead of the intended structured
`{'success': False, 'message': 'Related Object not found.'}` the call raises
a `NameError` — evaluated here at a concrete failing input. -/
theorem C3_add_campaign_raises_on_unresolved_related :
    add_campaign [] [] "NewCamp" "desc" .other "alice" none none
        (some "X") (some "Actor") none (fun _ => false) =
      .error (.nameError "retVal") := rfl

/-- Claim C4: alias inputs given as the comma-separated string `"a, b ,c"`
and as the list `["a","b","c"]` normalize to the same stored alias list
`["a","b","c"]` (each element trimmed), `add_campaign` creates the same
campaign from either form, and the stored alias list never holds
duplicates. -/
theorem C4_alias_normalization_agrees :
    add_alias [] (final_aliases (.str "a, b ,c")) = ["a", "b", "c"] ∧
    add_alias [] (final_aliases (.list ["a", "b", "c"])) = ["a", "b", "c"] ∧
    add_campaign [] [] "Foo" "d" (.str "a, b ,c") "alice" none none none none
        none (fun _ => false) =
      add_campaign [] [] "Foo" "d" (.list ["a", "b", "c"]) "alice" none none
        none none none (fun _ => false) ∧
    ∀ l : List String, (add_alias [] l).Nodup :=
  ⟨by decide, by decide, rfl, fun l => add_alias_nodup [] List.nodup_nil l⟩

/-- Claim C5: creating a Campaign whose name already has a registry record
returns the `Campaign already exists.` failure carrying the existing record's
id, and leaves the registry exactly as it was — nothing is mutated or
persisted. -/
theorem C5_add_campaign_already_exists (camps : List CampaignRec)
    (store : Store) (name description : String) (aliases : AliasInput)
    (analyst : String)
    (bucket_list ticket related_id related_type relationship_type : Option String)
    (failSaveC : CampaignRec → Bool) (c : CampaignRec)
    (h : findCampaign camps name = some c) :
    add_campaign camps store name description aliases analyst bucket_list
        ticket related_id related_type relationship_type failSaveC =
      .ok ({ success := false, message := .strList ["Campaign already exists."],
             id := some c.id }, camps) := by
  simp [add_campaign, h]

/-- Witness for C5 at a concrete registry holding a record named `Foo`. -/
theorem C5_add_campaign_already_exists_witness :
    add_campaign [{ id := "1", name := "Foo", description := "", aliases := [],
                    bucket_list := none, ticket := none, relationships := [] }]
        [] "Foo" "d" .other "alice" none none none none none (fun _ => false) =
      .ok ({ success := false, message := .strList ["Campaign already exists."],
             id := some "1" },
           [{ id := "1", name := "Foo", description := "", aliases := [],
              bucket_list := none, ticket := none, relationships := [] }]) :=
  C5_add_campaign_already_exists
    [{ id := "1", name := "Foo", description := "", aliases := [],
       bucket_list := none, ticket := none, relationships := [] }]
    [] "Foo" "d" .other "alice" none none none none none (fun _ => false)
    { id := "1", name := "Foo", description := "", aliases := [],
      bucket_list := none, ticket := none, relationships := [] } rfl

/-- Claim C9: calling `campaign_add` with no pre-loaded instance and with the
type tag or the object id missing returns the structured failure
`Object type and ID, or object instance, must be provided.` and leaves the
store untouched. -/
theorem C9_campaign_add_missing_target_args (store : Store)
    (n conf d : String) (related : Bool) (analyst : String)
    (ctype oid : Option String) (update : Bool) (now : Nat)
    (failSave : String → String → Bool)
    (h : truthy ctype = false ∨ truthy oid = false) :
    campaign_add store n conf d related analyst ctype oid none update now
        failSave =
      ({ success := false,
         message := some "Object type and ID, or object instance, must be provided.",
         html := none }, store) := by
  rcases h with h | h <;> simp [campaign_add, h]

/-- Witness for C9 with an object id but no type tag. -/
theorem C9_campaign_add_missing_target_args_witness :
    campaign_add [] "Foo" "low" "d" false "alice" none (some "x") none true 0
        (fun _ _ => false) =
      ({ success := false,
         message := some "Object type and ID, or object instance, must be provided.",
         html := none }, []) :=
  C9_campaign_add_missing_target_args _ _ _ _ _ _ _ _ _ _ _ (Or.inl rfl)

/-- Claim C10: an aliases argument that is neither a string nor a list (e.g.
`None`) normalizes to the empty list, and campaign creation still succeeds,
storing a record with no aliases. -/
theorem C10_aliases_other_creates_without_aliases (camps : List CampaignRec)
    (store : Store) (name description analyst : String)
    (failSaveC : CampaignRec → Bool)
    (hname : findCampaign camps name = none)
    (hsave : failSaveC { id := "new:" ++ name, name := name,
                         description := description, aliases := [],
                         bucket_list := none, ticket := none,
                         relationships := [] } = false) :
    final_aliases .other = [] ∧
    add_campaign camps store name description .other analyst none none none
        none none failSaveC =
      .ok ({ success := true, message := .str "Campaign created successfully!",
             id := some ("new:" ++ name) },
           camps ++ [{ id := "new:" ++ name, name := name,
                       description := description, aliases := [],
                       bucket_list := none, ticket := none,
                       relationships := [] }]) := by
  refine ⟨rfl, ?_⟩
  simp [add_campaign, hname, truthy, final_aliases, add_alias, hsave]

/-- Witness for C10 at an empty registry. -/
theorem C10_aliases_other_creates_without_aliases_witness :
    final_aliases .other = [] ∧
    add_campaign [] [] "Foo" "d" .other "alice" none none none none none
        (fun _ => false) =
      .ok ({ success := true, message := .str "Campaign created successfully!",
             id := some ("new:" ++ "Foo") },
           [] ++ [{ id := "new:" ++ "Foo", name := "Foo", description := "d",
                    aliases := [], bucket_list := none, ticket := none,
                    relationships := [] }]) :=
  C10_aliases_other_creates_without_aliases [] [] "Foo" "d" "alice"
    (fun _ => false) rfl rfl

/-- Claim C8: attributing with merge disabled (`update=False`) to a target
that already holds an entry for the campaign name leaves the embedded
attribution list — and hence every field of the pre-existing entry —
unchanged, leaves the persisted state unchanged, and still reports
success. -/
theorem C8_no_merge_is_noop (store : Store) (obj : TLO)
    (n conf d analyst : String) (now : Nat)
    (failSave : String → String → Bool)
    (hmem : (obj.campaigns.any fun c => c.name == n) = true)
    (hsave : failSave obj.ctype obj.oid = false)
    (hstore : ∀ t ∈ store, keyMatch t obj.ctype obj.oid = true → t = obj) :
    (addCampaignEmbed obj.campaigns ⟨n, conf, d, analyst, now⟩ false).campaigns
        = obj.campaigns ∧
    campaign_add store n conf d false analyst none none (some obj) false now
        failSave =
      ({ success := true, message := some "Campaign already attributed.",
         html := some (format_campaign ⟨n, conf, d, analyst, now⟩ analyst) },
       store) := by
  have hembed : addCampaignEmbed obj.campaigns ⟨n, conf, d, analyst, now⟩ false
      = { success := true, message := "Campaign already attributed.",
          campaigns := obj.campaigns } := by
    unfold addCampaignEmbed
    simp [hmem]
  have heta : ({ ctype := obj.ctype, oid := obj.oid, campaigns := obj.campaigns,
                 relationships := obj.relationships } : TLO) = obj := rfl
  refine ⟨by rw [hembed], ?_⟩
  simp [campaign_add, hembed, heta, hsave, updateObj_eq_self store obj hstore]

/-- Witness for C8: a store holding one indicator already attributed to
`Foo`. -/
theorem C8_no_merge_is_noop_witness :
    (addCampaignEmbed [⟨"Foo", "low", "d0", "bob", 1⟩]
        ⟨"Foo", "high", "d1", "alice", 7⟩ false).campaigns
      = [⟨"Foo", "low", "d0", "bob", 1⟩] ∧
    campaign_add [⟨"Indicator", "X", [⟨"Foo", "low", "d0", "bob", 1⟩], []⟩]
        "Foo" "high" "d1" false "alice" none none
        (some ⟨"Indicator", "X", [⟨"Foo", "low", "d0", "bob", 1⟩], []⟩) false 7
        (fun _ _ => false) =
      ({ success := true, message := some "Campaign already attributed.",
         html := some (format_campaign ⟨"Foo", "high", "d1", "alice", 7⟩ "alice") },
       [⟨"Indicator", "X", [⟨"Foo", "low", "d0", "bob", 1⟩], []⟩]) :=
  C8_no_merge_is_noop [⟨"Indicator", "X", [⟨"Foo", "low", "d0", "bob", 1⟩], []⟩]
    ⟨"Indicator", "X", [⟨"Foo", "low", "d0", "bob", 1⟩], []⟩
    "Foo" "high" "d1" "alice" 7 (fun _ _ => false) (by decide) rfl
    (by decide)

/-- Claim C7 counterexample: removing a campaign attribution for a name not
present on an existing target does not fail — `campaign_remove` discards the
embedded remove result and reports success. -/
theorem C7_remove_missing_entry_counterexample :
    campaign_remove [⟨"Indicator", "X", [], []⟩] "Indicator" "X" "Foo" "alice"
        (fun _ _ => false) =
      ({ success := true, message := none, html := none },
       [⟨"Indicator", "X", [], []⟩]) := rfl

/-- Claim C7 (amended): removal fails with `Cannot find <type>.` when the
target cannot be resolved, but removing a campaign name that is not present
on an existing target is a successful no-op — the handler discards the
entry-level NotFound reported by the embedded remove and persists the
unchanged object. -/
theorem C7_remove_amended (store : Store) (ct oid n analyst : String)
    (failSave : String → String → Bool) :
    (class_from_id store ct oid = none →
      campaign_remove store ct oid n analyst failSave =
        ({ success := false, message := some ("Cannot find " ++ ct ++ "."),
           html := none }, store)) ∧
    (∀ cobj : TLO, class_from_id store ct oid = some cobj →
      (cobj.campaigns.any fun c => c.name == n) = false →
      failSave cobj.ctype cobj.oid = false →
      (removeCampaignEmbed cobj.campaigns n).success = false ∧
      campaign_remove store ct oid n analyst failSave =
        ({ success := true, message := none, html := none },
         updateObj store cobj)) := by
  constructor
  · intro h
    simp [campaign_remove, h]
  · intro cobj h hmem hsave
    have hembed : removeCampaignEmbed cobj.campaigns n
        = { success := false, message := "Campaign not found.",
            campaigns := cobj.campaigns } := by
      unfold removeCampaignEmbed
      simp [hmem]
    have heta : ({ ctype := cobj.ctype, oid := cobj.oid,
                   campaigns := cobj.campaigns,
                   relationships := cobj.relationships } : TLO) = cobj := rfl
    refine ⟨by rw [hembed], ?_⟩
    simp [campaign_remove, h, hembed, heta, hsave]

/-- Witness for C7 (amended): both failure kinds at concrete inputs. -/
theorem C7_remove_amended_witness :
    (campaign_remove [] "Indicator" "X" "Foo" "alice" (fun _ _ => false) =
      ({ success := false, message := some ("Cannot find " ++ "Indicator" ++ "."),
         html := none }, [])) ∧
    ((removeCampaignEmbed ([] : List EmbeddedCampaign) "Foo").success = false ∧
     campaign_remove [⟨"Indicator", "Y", [], []⟩] "Indicator" "Y" "Foo" "alice"
        (fun _ _ => false) =
      ({ success := true, message := none, html := none },
       updateObj [⟨"Indicator", "Y", [], []⟩] ⟨"Indicator", "Y", [], []⟩)) :=
  ⟨(C7_remove_amended [] "Indicator" "X" "Foo" "alice" (fun _ _ => false)).1 rfl,
   (C7_remove_amended [⟨"Indicator", "Y", [], []⟩] "Indicator" "Y" "Foo" "alice"
      (fun _ _ => false)).2 ⟨"Indicator", "Y", [], []⟩ (by decide) rfl rfl⟩

/-- Claim C6 counterexample: editing an attribution for a campaign name not
present on an existing target does not fail with an entry-level NotFound —
`campaign_edit` discards the embedded edit result and reports success. -/
theorem C6_edit_missing_entry_counterexample :
    campaign_edit [⟨"Indicator", "X", [], []⟩] "Indicator" "X" "Foo" "low" "d"
        3 false "alice" (fun _ _ => false) =
      ({ success := true, message := none,
         html := some ("Foo" ++ "|" ++ "low" ++ "|" ++ "alice") },
       [⟨"Indicator", "X", [], []⟩]) := rfl

/-- Claim C6 (amended): editing on an unresolvable target fails with the
target-level `Cannot find <type>.` message, but when the target exists and
holds no entry for the campaign name, the entry-level NotFound reported by
the embedded edit is discarded by the handler, which leaves the attribution
list unchanged and reports success. -/
theorem C6_edit_amended (store : Store) (ct oid n conf d : String)
    (date : Nat) (analyst : String) (failSave : String → String → Bool) :
    (class_from_id store ct oid = none →
      campaign_edit store ct oid n conf d date false analyst failSave =
        ({ success := false, message := some ("Cannot find " ++ ct ++ "."),
           html := none }, store)) ∧
    (∀ cobj : TLO, class_from_id store ct oid = some cobj →
      (cobj.campaigns.any fun c => c.name == n) = false →
      failSave cobj.ctype cobj.oid = false →
      (editCampaignEmbed cobj.campaigns ⟨n, conf, d, analyst, date⟩).success
          = false ∧
      campaign_edit store ct oid n conf d date false analyst failSave =
        ({ success := true, message := none,
           html := some (format_campaign ⟨n, conf, d, analyst, date⟩ analyst) },
         updateObj store cobj)) := by
  constructor
  · intro h
    simp [campaign_edit, h]
  · intro cobj h hmem hsave
    have hembed : editCampaignEmbed cobj.campaigns ⟨n, conf, d, analyst, date⟩
        = { success := false, message := "Campaign not found.",
            campaigns := cobj.campaigns } := by
      unfold editCampaignEmbed
      simp [hmem]
    have heta : ({ ctype := cobj.ctype, oid := cobj.oid,
                   campaigns := cobj.campaigns,
                   relationships := cobj.relationships } : TLO) = cobj := rfl
    refine ⟨by rw [hembed], ?_⟩
    simp [campaign_edit, h, hembed, heta, hsave]

/-- Witness for C6 (amended): both failure kinds at concrete inputs. -/
theorem C6_edit_amended_witness :
    (campaign_edit [] "Indicator" "X" "Foo" "low" "d" 3 false "alice"
        (fun _ _ => false) =
      ({ success := false, message := some ("Cannot find " ++ "Indicator" ++ "."),
         html := none }, [])) ∧
    ((editCampaignEmbed ([] : List EmbeddedCampaign)
        ⟨"Foo", "low", "d", "alice", 3⟩).success = false ∧
     campaign_edit [⟨"Indicator", "Y", [], []⟩] "Indicator" "Y" "Foo" "low" "d"
        3 false "alice" (fun _ _ => false) =
      ({ success := true, message := none,
         html := some (format_campaign ⟨"Foo", "low", "d", "alice", 3⟩ "alice") },
       updateObj [⟨"Indicator", "Y", [], []⟩] ⟨"Indicator", "Y", [], []⟩)) :=
  ⟨(C6_edit_amended [] "Indicator" "X" "Foo" "low" "d" 3 "alice"
      (fun _ _ => false)).1 rfl,
   (C6_edit_amended [⟨"Indicator", "Y", [], []⟩] "Indicator" "Y" "Foo" "low" "d"
      3 "alice" (fun _ _ => false)).2 ⟨"Indicator", "Y", [], []⟩ (by decide)
      rfl rfl⟩

theorem campaign_add_by_id (store : Store) (obj : TLO)
    (ct oid n conf d analyst : String) (now : Nat)
    (failSave : String → String → Bool)
    (hct0 : (ct == "") = false) (hoid0 : (oid == "") = false)
    (hres : class_from_id store ct oid = some obj)
    (hct : obj.ctype = ct) (hoid : obj.oid = oid)
    (hsave : failSave ct oid = false) :
    campaign_add store n conf d false analyst (some ct) (some oid) none true
        now failSave =
      ({ success := true,
         message := some (addCampaignEmbed obj.campaigns
           ⟨n, conf, d, analyst, now⟩ true).message,
         html := some (format_campaign ⟨n, conf, d, analyst, now⟩ analyst) },
       updateObj store { obj with campaigns := (addCampaignEmbed obj.campaigns
         ⟨n, conf, d, analyst, now⟩ true).campaigns }) := by
  simp [campaign_add, truthy, hct0, hoid0, hres, hct, hoid, hsave,
        addCampaignEmbed_success]

theorem map_ite_name_eq_self_prop (cs : List EmbeddedCampaign) (n : String)
    (f : EmbeddedCampaign → EmbeddedCampaign)
    (h : (cs.any fun c => c.name == n) = false) :
    (cs.map fun c => if c.name = n then f c else c) = cs := by
  induction cs with
  | nil => rfl
  | cons a l ih =>
    simp only [List.any_cons, Bool.or_eq_false_iff] at h
    have ha : ¬(a.name = n) := by simpa using h.1
    rw [List.map_cons, if_neg ha, ih h.2]

/-- Claim C1: attributing the same campaign name twice to the same object
with merge enabled leaves the object holding exactly one embedded entry for
that name, whose confidence and description come from the second call and
whose analyst and date come from the first; and every embedded-list mutation
preserves the at-most-one-entry-per-name invariant. -/
theorem C1_duplicate_attribution_merges (store : Store) (obj : TLO)
    (ct oid n c1 d1 a1 c2 d2 a2 : String) (now1 now2 : Nat)
    (failSave : String → String → Bool)
    (hct0 : (ct == "") = false) (hoid0 : (oid == "") = false)
    (hres : class_from_id store ct oid = some obj)
    (hct : obj.ctype = ct) (hoid : obj.oid = oid)
    (hno : (obj.campaigns.any fun c => c.name == n) = false)
    (hsave : failSave ct oid = false) :
    (findObj (campaign_add (campaign_add store n c1 d1 false a1 (some ct)
          (some oid) none true now1 failSave).2 n c2 d2 false a2 (some ct)
          (some oid) none true now2 failSave).2 ct oid =
        some { obj with campaigns :=
          obj.campaigns ++ ([⟨n, c2, d2, a1, now1⟩] : List EmbeddedCampaign) } ∧
      ((obj.campaigns ++ ([⟨n, c2, d2, a1, now1⟩] : List EmbeddedCampaign)).filter
          fun c => c.name == n) = [⟨n, c2, d2, a1, now1⟩]) ∧
    (∀ cs item u, nodupNames cs →
      nodupNames (addCampaignEmbed cs item u).campaigns) ∧
    (∀ cs item, nodupNames cs →
      nodupNames (editCampaignEmbed cs item).campaigns) ∧
    (∀ cs m, nodupNames cs →
      nodupNames (removeCampaignEmbed cs m).campaigns) := by
  subst hct
  subst hoid
  have hknown : class_from_type obj.ctype = true := by
    cases hk : class_from_type obj.ctype with
    | true => rfl
    | false => unfold class_from_id at hres; rw [hk] at hres; simp at hres
  have hfind : findObj store obj.ctype obj.oid = some obj := by
    unfold class_from_id at hres
    rw [hknown] at hres
    simpa using hres
  have hembed1 : addCampaignEmbed obj.campaigns ⟨n, c1, d1, a1, now1⟩ true
      = { success := true, message := "Campaign added.",
          campaigns := obj.campaigns ++ [⟨n, c1, d1, a1, now1⟩] } := by
    unfold addCampaignEmbed
    simp [hno]
  have h1 : campaign_add store n c1 d1 false a1 (some obj.ctype)
      (some obj.oid) none true now1 failSave
      = ({ success := true, message := some "Campaign added.",
           html := some (format_campaign ⟨n, c1, d1, a1, now1⟩ a1) },
         updateObj store
           { obj with campaigns := obj.campaigns ++ [⟨n, c1, d1, a1, now1⟩] }) := by
    rw [campaign_add_by_id store obj obj.ctype obj.oid n c1 d1 a1 now1 failSave
          hct0 hoid0 hres rfl rfl hsave]
    simp [hembed1]
  have hfind1 : findObj
      (updateObj store
        { obj with campaigns := obj.campaigns ++ [⟨n, c1, d1, a1, now1⟩] })
      obj.ctype obj.oid =
      some { obj with campaigns := obj.campaigns ++ [⟨n, c1, d1, a1, now1⟩] } := by
    exact findObj_updateObj_self store
      { obj with campaigns := obj.campaigns ++ [⟨n, c1, d1, a1, now1⟩] }
      (by show (findObj store obj.ctype obj.oid).isSome = true
          rw [hfind]
          rfl)
  have hres1 : class_from_id
      (updateObj store
        { obj with campaigns := obj.campaigns ++ [⟨n, c1, d1, a1, now1⟩] })
      obj.ctype obj.oid =
      some { obj with campaigns := obj.campaigns ++ [⟨n, c1, d1, a1, now1⟩] } := by
    unfold class_from_id
    rw [hknown]
    simpa using hfind1
  have hembed2 : addCampaignEmbed (obj.campaigns ++ [⟨n, c1, d1, a1, now1⟩])
      ⟨n, c2, d2, a2, now2⟩ true
      = { success := true, message := "Campaign value updated.",
          campaigns := obj.campaigns ++ [⟨n, c2, d2, a1, now1⟩] } := by
    unfold addCampaignEmbed
    simp [List.any_append, List.map_append,
          map_ite_name_eq_self_prop obj.campaigns n
            (fun c => { c with confidence := c2, description := d2 }) hno]
  have h2 : campaign_add
      (updateObj store
        { obj with campaigns := obj.campaigns ++ [⟨n, c1, d1, a1, now1⟩] })
      n c2 d2 false a2 (some obj.ctype) (some obj.oid) none true now2 failSave
      = ({ success := true, message := some "Campaign value updated.",
           html := some (format_campaign ⟨n, c2, d2, a2, now2⟩ a2) },
         updateObj
           (updateObj store
             { obj with campaigns := obj.campaigns ++ [⟨n, c1, d1, a1, now1⟩] })
           { obj with campaigns := obj.campaigns ++ [⟨n, c2, d2, a1, now1⟩] }) := by
    rw [campaign_add_by_id _
          { obj with campaigns := obj.campaigns ++ [⟨n, c1, d1, a1, now1⟩] }
          obj.ctype obj.oid n c2 d2 a2 now2 failSave hct0 hoid0 hres1 rfl rfl
          hsave]
    simp [hembed2]
  have hfilter : ((obj.campaigns ++
      ([⟨n, c2, d2, a1, now1⟩] : List EmbeddedCampaign)).filter
      fun c => c.name == n) = [⟨n, c2, d2, a1, now1⟩] := by
    have hnil : (obj.campaigns.filter fun c => c.name == n) = [] := by
      rw [List.filter_eq_nil_iff]
      exact List.any_eq_false.mp hno
    simp [List.filter_append, hnil]
  refine ⟨⟨?_, hfilter⟩, nodupNames_addCampaignEmbed,
          nodupNames_editCampaignEmbed, nodupNames_removeCampaignEmbed⟩
  have hfin := findObj_updateObj_self
    (updateObj store
      { obj with campaigns := obj.campaigns ++ [⟨n, c1, d1, a1, now1⟩] })
    { obj with campaigns := obj.campaigns ++ [⟨n, c2, d2, a1, now1⟩] }
    (by show (findObj
          (updateObj store
            { obj with campaigns := obj.campaigns ++ [⟨n, c1, d1, a1, now1⟩] })
          obj.ctype obj.oid).isSome = true
        rw [hfind1]
        rfl)
  simp only [h1, h2]
  exact hfin

/-- Witness for C1: a store holding one unattributed indicator, attributed to
`Foo` twice. -/
theorem C1_duplicate_attribution_merges_witness :
    (findObj (campaign_add (campaign_add [⟨"Indicator", "X", [], []⟩] "Foo"
          "low" "d1" false "a1" (some "Indicator") (some "X") none true 5
          (fun _ _ => false)).2 "Foo" "high" "d2" false "a2" (some "Indicator")
          (some "X") none true 9 (fun _ _ => false)).2 "Indicator" "X" =
        some { ctype := "Indicator", oid := "X",
               campaigns := [] ++ [⟨"Foo", "high", "d2", "a1", 5⟩],
               relationships := [] } ∧
      ((([] ++ [⟨"Foo", "high", "d2", "a1", 5⟩] : List EmbeddedCampaign)).filter
          fun c => c.name == "Foo") = [⟨"Foo", "high", "d2", "a1", 5⟩]) ∧
    (∀ cs item u, nodupNames cs →
      nodupNames (addCampaignEmbed cs item u).campaigns) ∧
    (∀ cs item, nodupNames cs →
      nodupNames (editCampaignEmbed cs item).campaigns) ∧
    (∀ cs m, nodupNames cs →
      nodupNames (removeCampaignEmbed cs m).campaigns) :=
  C1_duplicate_attribution_merges [⟨"Indicator", "X", [], []⟩]
    ⟨"Indicator", "X", [], []⟩ "Indicator" "X" "Foo" "low" "d1" "a1" "high"
    "d2" "a2" 5 9 (fun _ _ => false) rfl rfl (by decide) rfl rfl rfl rfl

/-- Claim C2: when an attribution with propagation is applied to `A` related
to `B` and `C`, with `B`'s save failing validation, the failure is swallowed:
`C` still receives the attribution, `B` stays as it was (no rollback), the
call still reports success, and the result of the call depends on the save
behaviour only through `A`'s own key. -/
theorem C2_propagation_swallows_failures (store : Store) (A B C : TLO)
    (n conf d analyst : String) (now : Nat)
    (failSave : String → String → Bool)
    (hrelA : A.relationships = [⟨B.ctype, B.oid⟩, ⟨C.ctype, C.oid⟩])
    (hBknown : class_from_type B.ctype = true)
    (hCknown : class_from_type C.ctype = true)
    (hBfind : findObj store B.ctype B.oid = some B)
    (hCfind : findObj store C.ctype C.oid = some C)
    (hABkey : keyMatch A B.ctype B.oid = false)
    (hACkey : keyMatch A C.ctype C.oid = false)
    (hCBkey : keyMatch C B.ctype B.oid = false)
    (hfailB : failSave B.ctype B.oid = true)
    (hfailC : failSave C.ctype C.oid = false)
    (hfailA : failSave A.ctype A.oid = false) :
    (campaign_add store n conf d true analyst none none (some A) true now
        failSave).1.success = true ∧
    findObj (campaign_add store n conf d true analyst none none (some A) true
        now failSave).2 C.ctype C.oid =
      some { C with campaigns := (addCampaignEmbed C.campaigns
        ⟨n, conf, d, analyst, now⟩ true).campaigns } ∧
    findObj (campaign_add store n conf d true analyst none none (some A) true
        now failSave).2 B.ctype B.oid = some B ∧
    (∀ failSave' : String → String → Bool,
      failSave A.ctype A.oid = failSave' A.ctype A.oid →
      (campaign_add store n conf d true analyst none none (some A) true now
          failSave).1 =
        (campaign_add store n conf d true analyst none none (some A) true now
          failSave').1) := by
  have hprop : campaign_addto_related store
      { A with campaigns := (addCampaignEmbed A.campaigns
        ⟨n, conf, d, analyst, now⟩ true).campaigns }
      ⟨n, conf, d, analyst, now⟩ analyst failSave =
      updateObj store { C with campaigns := (addCampaignEmbed C.campaigns
        ⟨n, conf, d, analyst, now⟩ true).campaigns } := by
    unfold campaign_addto_related
    have hrel : ({ A with campaigns := (addCampaignEmbed A.campaigns
        ⟨n, conf, d, analyst, now⟩ true).campaigns } : TLO).relationships
        = [⟨B.ctype, B.oid⟩, ⟨C.ctype, C.oid⟩] := hrelA
    rw [hrel]
    simp [hBknown, hCknown, hBfind, hCfind, hfailB, hfailC]
  have hmain : campaign_add store n conf d true analyst none none (some A)
      true now failSave =
      ({ success := true,
         message := some (addCampaignEmbed A.campaigns
           ⟨n, conf, d, analyst, now⟩ true).message,
         html := some (format_campaign ⟨n, conf, d, analyst, now⟩ analyst) },
       updateObj
         (updateObj store { C with campaigns := (addCampaignEmbed C.campaigns
           ⟨n, conf, d, analyst, now⟩ true).campaigns })
         { A with campaigns := (addCampaignEmbed A.campaigns
           ⟨n, conf, d, analyst, now⟩ true).campaigns }) := by
    simp [campaign_add, addCampaignEmbed_success, hprop, hfailA]
  refine ⟨by rw [hmain], ?_, ?_, ?_⟩
  · have h1 : findObj
        (updateObj
          (updateObj store { C with campaigns := (addCampaignEmbed C.campaigns
            ⟨n, conf, d, analyst, now⟩ true).campaigns })
          { A with campaigns := (addCampaignEmbed A.campaigns
            ⟨n, conf, d, analyst, now⟩ true).campaigns })
        C.ctype C.oid =
        findObj
          (updateObj store { C with campaigns := (addCampaignEmbed C.campaigns
            ⟨n, conf, d, analyst, now⟩ true).campaigns })
          C.ctype C.oid :=
      findObj_updateObj_other _ _ C.ctype C.oid hACkey
    have h2 : findObj
        (updateObj store { C with campaigns := (addCampaignEmbed C.campaigns
          ⟨n, conf, d, analyst, now⟩ true).campaigns })
        C.ctype C.oid =
        some { C with campaigns := (addCampaignEmbed C.campaigns
          ⟨n, conf, d, analyst, now⟩ true).campaigns } :=
      findObj_updateObj_self store _
        (by show (findObj store C.ctype C.oid).isSome = true
            rw [hCfind]
            rfl)
    rw [hmain]
    exact h1.trans h2
  · have h1 : findObj
        (updateObj
          (updateObj store { C with campaigns := (addCampaignEmbed C.campaigns
            ⟨n, conf, d, analyst, now⟩ true).campaigns })
          { A with campaigns := (addCampaignEmbed A.campaigns
            ⟨n, conf, d, analyst, now⟩ true).campaigns })
        B.ctype B.oid =
        findObj
          (updateObj store { C with campaigns := (addCampaignEmbed C.campaigns
            ⟨n, conf, d, analyst, now⟩ true).campaigns })
          B.ctype B.oid :=
      findObj_updateObj_other _ _ B.ctype B.oid hABkey
    have h2 : findObj
        (updateObj store { C with campaigns := (addCampaignEmbed C.campaigns
          ⟨n, conf, d, analyst, now⟩ true).campaigns })
        B.ctype B.oid = findObj store B.ctype B.oid :=
      findObj_updateObj_other _ _ B.ctype B.oid hCBkey
    rw [hmain]
    exact (h1.trans h2).trans hBfind
  · intro failSave' hAA'
    simp only [campaign_add, addCampaignEmbed_success, if_true]
    rw [show ({ A with campaigns := (addCampaignEmbed A.campaigns
          ⟨n, conf, d, analyst, now⟩ true).campaigns } : TLO).ctype = A.ctype
        from rfl,
        show ({ A with campaigns := (addCampaignEmbed A.campaigns
          ⟨n, conf, d, analyst, now⟩ true).campaigns } : TLO).oid = A.oid
        from rfl,
        hAA']
    cases hc : failSave' A.ctype A.oid <;> simp [hc]

/-- Witness for C2: indicator `A` related to domains `B` and `C`, with the
store rejecting saves of `B` only. -/
theorem C2_propagation_swallows_failures_witness :
    (campaign_add [⟨"Domain", "B", [], []⟩, ⟨"Domain", "C", [], []⟩] "Foo"
        "low" "d" true "alice" none none
        (some ⟨"Indicator", "A", [], [⟨"Domain", "B"⟩, ⟨"Domain", "C"⟩]⟩) true 4
        (fun _ o => o == "B")).1.success = true ∧
    findObj (campaign_add [⟨"Domain", "B", [], []⟩, ⟨"Domain", "C", [], []⟩]
        "Foo" "low" "d" true "alice" none none
        (some ⟨"Indicator", "A", [], [⟨"Domain", "B"⟩, ⟨"Domain", "C"⟩]⟩) true 4
        (fun _ o => o == "B")).2 "Domain" "C" =
      some { ctype := "Domain", oid := "C",
             campaigns := (addCampaignEmbed [] ⟨"Foo", "low", "d", "alice", 4⟩
               true).campaigns,
             relationships := [] } ∧
    findObj (campaign_add [⟨"Domain", "B", [], []⟩, ⟨"Domain", "C", [], []⟩]
        "Foo" "low" "d" true "alice" none none
        (some ⟨"Indicator", "A", [], [⟨"Domain", "B"⟩, ⟨"Domain", "C"⟩]⟩) true 4
        (fun _ o => o == "B")).2 "Domain" "B" =
      some ⟨"Domain", "B", [], []⟩ ∧
    (∀ failSave' : String → String → Bool,
      (fun _ o => o == "B") "Indicator" "A" = failSave' "Indicator" "A" →
      (campaign_add [⟨"Domain", "B", [], []⟩, ⟨"Domain", "C", [], []⟩] "Foo"
          "low" "d" true "alice" none none
          (some ⟨"Indicator", "A", [], [⟨"Domain", "B"⟩, ⟨"Domain", "C"⟩]⟩) true
          4 (fun _ o => o == "B")).1 =
        (campaign_add [⟨"Domain", "B", [], []⟩, ⟨"Domain", "C", [], []⟩] "Foo"
          "low" "d" true "alice" none none
          (some ⟨"Indicator", "A", [], [⟨"Domain", "B"⟩, ⟨"Domain", "C"⟩]⟩) true
          4 failSave').1) :=
  C2_propagation_swallows_failures
    [⟨"Domain", "B", [], []⟩, ⟨"Domain", "C", [], []⟩]
    ⟨"Indicator", "A", [], [⟨"Domain", "B"⟩, ⟨"Domain", "C"⟩]⟩
    ⟨"Domain", "B", [], []⟩ ⟨"Domain", "C", [], []⟩
    "Foo" "low" "d" "alice" 4 (fun _ o => o == "B") rfl (by decide) (by decide)
    (by decide) (by decide) (by decide) (by decide) (by decide) rfl rfl rfl

end Crits
